import Mathlib

/-!
Verification of the credential-handling core of the bank-payment API
(`bank-payment-api-mern`): password hashing and verification
(`services/passwordService.js`, `services/passwordServiceEnhanced.js`),
JWT issue/verify (`services/tokenService.js`), input validators
(`utils/validators.js`), the customer login route
(`routes/customerAuth.js`) with its audit logging (`models/AuditLog.js`),
and the brute-force abuse guard wired in `server.js`.

JavaScript strings are modelled as lists of characters (`Str`); the
per-call randomness of `crypto.randomBytes` is passed as an explicit
argument; promise-returning functions that catch all errors internally
are modelled as total functions, and operations that may throw are
modelled with `Except`.
-/

set_option maxHeartbeats 1000000

namespace BankApi

/-- JavaScript strings, modelled as lists of characters. -/
abbrev Str := List Char

/-! ## Credential hasher: `services/passwordService.js` (bcrypt-based)

`bcrypt` is an external library; we model its digest as an ideal
(collision-free) record of the hashed input together with the cost
factor, and `bcrypt.compare` as the corresponding equality test.  A
stored hash that is not a well-formed bcrypt digest is represented by
the `garbage` constructor, on which `bcrypt.compare` throws. -/

/-- A stored password hash: either an ideal bcrypt digest (cost factor
plus the exact input that was hashed, standing for an injective digest
with the bcrypt salt folded in), or a malformed/garbage string that does
not parse as a bcrypt hash. -/
inductive StoredHash where
  | bcrypt (cost : Nat) (input : Str)
  | garbage (raw : Str)
deriving DecidableEq, Repr

/-- `SALT_ROUNDS = 12` (passwordService.js line 10). -/
def SALT_ROUNDS : Nat := 12

/-- Model of `bcrypt.compare(candidate, hash)`: timing-safe equality
test against the digested input on a well-formed hash, a thrown error on
a malformed one. -/
def bcryptCompare (candidate : Str) (h : StoredHash) : Except Str Bool :=
  match h with
  | .bcrypt _ input => .ok (decide (candidate = input))
  | .garbage _ => .error "data and hash arguments required".data

/-- `const saltedPassword = password + customSalt` (passwordService.js
lines 25 and 49): the exact string handed to bcrypt. -/
def saltedInput (password customSalt : Str) : Str :=
  password ++ customSalt

/-- Result shape of `hashPassword`: `{ hash, salt }`. -/
structure HashResult where
  hash : StoredHash
  salt : Str
deriving DecidableEq, Repr

/-- `hashPassword(password)` (passwordService.js lines 19-37).  The
per-call randomness `crypto.randomBytes(CUSTOM_SALT_SIZE)` is passed in
as `customSalt`; the function appends it to the password, bcrypt-hashes
the combination, and returns the hash together with the salt. -/
def hashPassword (password customSalt : Str) : HashResult :=
  { hash := .bcrypt SALT_ROUNDS (saltedInput password customSalt)
    salt := customSalt }

/-- `verifyPassword(password, hash, salt)` (passwordService.js lines
46-59): re-append the stored salt, compare via bcrypt, and return
`false` on any thrown error (the `try/catch` that prevents information
leakage). -/
def verifyPassword (password : Str) (hash : StoredHash) (salt : Str) : Bool :=
  match bcryptCompare (saltedInput password salt) hash with
  | .ok b => b
  | .error _ => false

/-! ## Credential hasher: `services/passwordServiceEnhanced.js`
(argon2id-based, with pepper).  This module exists in the repository but
is not imported by any route; we embed its `hashPassword` far enough to
compare its peppering with the bcrypt service used by the login
routes. -/

/-- An ideal argon2id digest: parameters elided, the hashed input
recorded. -/
inductive Argon2Hash where
  | argon2id (salt : Str) (input : Str)
deriving DecidableEq, Repr

/-- `hashPassword` of `passwordServiceEnhanced.js` (lines 44-65): the
deployment pepper (`process.env.PASSWORD_PEPPER`) is appended to the
password before hashing; the random salt is a separate argon2 parameter
and is returned alongside the hash. -/
def enhancedHashPassword (pepper : Str) (password salt : Str) :
    Argon2Hash × Str :=
  (.argon2id salt (password ++ pepper), salt)

/-! ## Theorems for the credential hasher -/

/-- C1: round-trip of the bcrypt password service.  For every password
`P` and every salt drawn by `hashPassword`, verifying `P` against the
returned hash and salt succeeds. -/
theorem hashPassword_verifyPassword_roundtrip (P customSalt : Str) :
    verifyPassword P (hashPassword P customSalt).hash
      (hashPassword P customSalt).salt = true := by
  simp [verifyPassword, hashPassword, bcryptCompare]

/-- C2 counterexample: the claim says the password service used by the
login routes concatenates the password with a server-side pepper, a
deployment constant distinct from the per-credential salt and not stored
with the credential.  In `passwordService.js` the string handed to
bcrypt is `password + customSalt` where `customSalt` is the per-call
randomness, so no single constant `pepper` can describe the appended
suffix; moreover the appended value is exactly the salt returned (and
stored) with the credential. -/
theorem no_pepper_in_passwordService :
    ¬ (∃ pepper : Str,
        (∀ password customSalt : Str,
          saltedInput password customSalt = password ++ pepper) ∧
        (∀ password customSalt : Str,
          pepper ≠ (hashPassword password customSalt).salt)) := by
  rintro ⟨pepper, hconst, _⟩
  have ha := hconst [] ['a']
  have hb := hconst [] ['b']
  simp [saltedInput] at ha hb
  rw [← ha] at hb
  simp at hb

/-- C2 amended: in the bcrypt service used by the login routes, the
suffix appended to the password before hashing is the per-credential
random salt itself, and that same value is returned (hence stored) with
the credential; only the unused `passwordServiceEnhanced.js` appends a
deployment pepper, a constant independent of the per-credential salt. -/
theorem passwordService_appends_stored_salt (password customSalt : Str)
    (pepper salt : Str) :
    saltedInput password customSalt = password ++ customSalt ∧
    (hashPassword password customSalt).salt = customSalt ∧
    (enhancedHashPassword pepper password salt).1 =
      .argon2id salt (password ++ pepper) ∧
    (enhancedHashPassword pepper password salt).2 = salt := by
  refine ⟨rfl, rfl, rfl, rfl⟩

/-- C3: verification rejects wrong passwords and never throws on
malformed input.  Verifying `Q` against the hash and salt produced for
`P ≠ Q` yields `false`, and verifying any password against a stored
hash that does not parse as a bcrypt digest yields `false` (the
internal error is swallowed), for any salt. -/
theorem verifyPassword_rejects (P Q customSalt : Str) (hne : P ≠ Q) :
    verifyPassword Q (hashPassword P customSalt).hash
      (hashPassword P customSalt).salt = false ∧
    (∀ (password raw salt : Str),
      verifyPassword password (.garbage raw) salt = false) := by
  constructor
  · have hne' : saltedInput Q customSalt ≠ saltedInput P customSalt := by
      intro hEq
      exact hne (List.append_cancel_right hEq).symm
    simp [verifyPassword, hashPassword, bcryptCompare, hne']
  · intro password raw salt
    rfl

/-- C3 witness: a wrong password is rejected at a concrete input. -/
theorem verifyPassword_rejects_witness :
    verifyPassword "WrongPass1!".data
      (hashPassword "RightPass1!".data "somesalt".data).hash
      (hashPassword "RightPass1!".data "somesalt".data).salt = false :=
  (verifyPassword_rejects "RightPass1!".data "WrongPass1!".data
    "somesalt".data (by decide)).1

/-! ## Token issuer: `services/tokenService.js`

`jsonwebtoken` is an external library; we model a JWT as either a
payload carrying the registered claims together with an HMAC signature,
or a malformed string.  The HMAC is idealised as the unforgeable pair
(secret, payload): a signature verifies exactly when it was produced
with the same secret over the same payload.  `jwt.sign` computes
`exp = iat + expiresIn` (relative to the explicit `iat` in the payload)
and `jwt.verify` checks signature, issuer, audience, and expiry
(`clockTimestamp < exp`), all of which must pass. -/

/-- The claims carried by a token minted by `generateToken`: the
caller-supplied `userId`, `username`, `userType`, plus the envelope
claims `iat`, `exp`, `iss`, `aud`. -/
structure JwtPayload where
  userId : Str
  username : Str
  userType : Str
  iat : Nat
  exp : Nat
  iss : Str
  aud : Str
deriving DecidableEq, Repr

/-- Idealised HMAC: the signature is determined by (and only by) the
secret and the signed payload. -/
def macSign (secret : Str) (p : JwtPayload) : Str × JwtPayload :=
  (secret, p)

/-- A JWT: a signed payload, or a string that does not parse as a
three-segment token. -/
inductive Jwt where
  | signed (payload : JwtPayload) (sig : Str × JwtPayload)
  | malformed (raw : Str)
deriving DecidableEq, Repr

/-- Lifetime used by `jwt.sign`: `process.env.JWT_EXPIRE || '2h'`
(tokenService.js line 26), in seconds.  `envExpire` is the parsed
`JWT_EXPIRE` environment variable, absent by default. -/
def jwtLifetime (envExpire : Option Nat) : Nat :=
  envExpire.getD 7200

/-- `generateToken(payload)` (tokenService.js lines 14-33): signs
`{userId, username, userType, iat: now}` with `JWT_SECRET`, issuer
`BankPaymentAPI`, audience `BankPaymentClient`, and expiry
`iat + (JWT_EXPIRE || 2h)`. -/
def generateToken (envExpire : Option Nat) (secret : Str) (now : Nat)
    (userId username userType : Str) : Jwt :=
  let p : JwtPayload :=
    { userId := userId, username := username, userType := userType
      iat := now, exp := now + jwtLifetime envExpire
      iss := "BankPaymentAPI".data, aud := "BankPaymentClient".data }
  .signed p (macSign secret p)

/-- `verifyToken(token)` (tokenService.js lines 40-52): `jwt.verify`
with the fixed issuer and audience; any failure (bad signature, wrong
issuer or audience, elapsed expiry, malformed token) is caught and
yields `null`. -/
def verifyToken (secret : Str) (now : Nat) (t : Jwt) : Option JwtPayload :=
  match t with
  | .malformed _ => none
  | .signed p sig =>
    if sig = macSign secret p ∧ p.iss = "BankPaymentAPI".data ∧
        p.aud = "BankPaymentClient".data ∧ now < p.exp then
      some p
    else
      none

/-- `extractTokenFromHeader(authHeader)` (tokenService.js lines 59-65):
`null` when the header is absent/empty or does not start with the
case-sensitive `"Bearer "`, otherwise the substring after the 7-char
marker. -/
def extractTokenFromHeader (authHeader : Option Str) : Option Str :=
  match authHeader with
  | none => none
  | some h =>
    if h.isEmpty || !("Bearer ".data.isPrefixOf h) then
      none
    else
      some (h.drop 7)

/-! ## Theorems for the token issuer -/

/-- C4: token round-trip and fail-closed verification.  Verifying a
freshly issued token (any positive configured lifetime) returns claims
whose `userId` is the id it was issued for; and `verifyToken` returns
`none` for (a) a signature differing from the genuine one, (b) a token
whose expiry has elapsed, (c) a wrong issuer or audience, and (d) a
malformed token. -/
theorem verifyToken_roundtrip_and_fail_closed
    (envExpire : Option Nat) (secret : Str) (now : Nat)
    (userId username userType : Str)
    (hfresh : 0 < jwtLifetime envExpire) :
    (∃ p, verifyToken secret now
        (generateToken envExpire secret now userId username userType) = some p ∧
      p.userId = userId) ∧
    (∀ (p : JwtPayload) (sig : Str × JwtPayload) (now' : Nat),
      sig ≠ macSign secret p → verifyToken secret now' (.signed p sig) = none) ∧
    (∀ (p : JwtPayload) (now' : Nat),
      p.exp ≤ now' → verifyToken secret now' (.signed p (macSign secret p)) = none) ∧
    (∀ (p : JwtPayload) (now' : Nat),
      p.iss ≠ "BankPaymentAPI".data ∨ p.aud ≠ "BankPaymentClient".data →
      verifyToken secret now' (.signed p (macSign secret p)) = none) ∧
    (∀ (raw : Str) (now' : Nat), verifyToken secret now' (.malformed raw) = none) := by
  refine ⟨?_, ?_, ?_, ?_, ?_⟩
  · refine ⟨⟨userId, username, userType, now, now + jwtLifetime envExpire,
        "BankPaymentAPI".data, "BankPaymentClient".data⟩, ?_, rfl⟩
    simp [verifyToken, generateToken, macSign]
    omega
  · intro p sig now' hsig
    simp [verifyToken, hsig]
  · intro p now' hexp
    simp [verifyToken]
    omega
  · intro p now' hbad
    rcases hbad with h | h <;> simp [verifyToken, h]
  · intro raw now'
    rfl

/-- C4 witness: round-trip and rejection at concrete inputs. -/
theorem verifyToken_roundtrip_witness :
    ∃ p, verifyToken "s3cret".data 1000
        (generateToken none "s3cret".data 1000 "id1".data "alice".data
          "customer".data) = some p ∧
      p.userId = "id1".data :=
  (verifyToken_roundtrip_and_fail_closed none "s3cret".data 1000
    "id1".data "alice".data "customer".data (by decide)).1

/-- The `exp` claim carried by a token (0 for a malformed token). -/
def jwtExpOf : Jwt → Nat
  | .signed p _ => p.exp
  | .malformed _ => 0

/-- The `iat` claim carried by a token (0 for a malformed token). -/
def jwtIatOf : Jwt → Nat
  | .signed p _ => p.iat
  | .malformed _ => 0

/-- C5 counterexample: the claim says every token's expiry is its
issued-at time plus a fixed 2-hour lifetime, but with the `JWT_EXPIRE`
environment variable set to 3600 seconds the minted token expires one
hour after issuance, not two. -/
theorem generateToken_lifetime_not_fixed :
    ¬ (∀ (envExpire : Option Nat),
        jwtExpOf (generateToken envExpire "s".data 0 "u".data "n".data "t".data) =
          jwtIatOf (generateToken envExpire "s".data 0 "u".data "n".data "t".data)
            + 7200) := by
  intro h
  have h1 := h (some 3600)
  simp [generateToken, jwtLifetime, jwtExpOf, jwtIatOf] at h1

/-- C5 amended: every token minted by `generateToken` has expiry equal
to its issued-at time plus the configured lifetime, which is 2 hours
exactly when the `JWT_EXPIRE` environment variable is unset (the
default). -/
theorem generateToken_exp_eq_iat_add_lifetime
    (envExpire : Option Nat) (secret : Str) (now : Nat)
    (userId username userType : Str) :
    (∃ p sig,
      generateToken envExpire secret now userId username userType =
        .signed p sig ∧
      p.iat = now ∧ p.exp = p.iat + jwtLifetime envExpire) ∧
    (envExpire = none → jwtLifetime envExpire = 7200) := by
  refine ⟨⟨_, _, rfl, rfl, rfl⟩, ?_⟩
  intro h
  simp [jwtLifetime, h]

/-- C5 amended witness: the default-configuration token expires exactly
7200 seconds after issuance. -/
theorem generateToken_exp_witness :
    (∃ p sig,
      generateToken none "s".data 5 "u".data "n".data "t".data =
        .signed p sig ∧
      p.iat = 5 ∧ p.exp = p.iat + jwtLifetime none) ∧
    (none = (none : Option Nat) → jwtLifetime none = 7200) :=
  generateToken_exp_eq_iat_add_lifetime none "s".data 5 "u".data
    "n".data "t".data

/-- C6: header extraction accepts exactly the `"Bearer <token>"` shape.
For a present header `h`, the helper returns `some t` precisely when
`h` is the case-sensitive `"Bearer "` followed by `t`; an absent header
yields `none`. -/
theorem extractTokenFromHeader_spec (h t : Str) :
    (extractTokenFromHeader (some h) = some t ↔ h = "Bearer ".data ++ t) ∧
    extractTokenFromHeader none = none := by
  constructor
  · constructor
    · intro hx
      unfold extractTokenFromHeader at hx
      by_cases hp : "Bearer ".data.isPrefixOf h
      · rcases (List.isPrefixOf_iff_prefix.mp hp) with ⟨rest, hrest⟩
        have hne : ¬ h.isEmpty := by
          subst hrest
          simp
        simp [hne, hp] at hx
        subst hrest
        have : ("Bearer ".data ++ rest).drop 7 = rest := by
          simp
        rw [this] at hx
        rw [← hx]
      · simp [hp] at hx
    · intro hx
      subst hx
      have hp : "Bearer ".data.isPrefixOf ("Bearer ".data ++ t) := by
        exact List.isPrefixOf_iff_prefix.mpr ⟨t, rfl⟩
      have hne : ¬ ("Bearer ".data ++ t).isEmpty := by simp
      simp [extractTokenFromHeader, hne, hp]
  · rfl

/-! ## Validator: `utils/validators.js`

Each predicate is a closed whitelist test; the regular expressions are
transcribed as decidable character-class checks over `Str`. -/

/-- `isValidAccountNumber`: `/^[0-9]{10,16}$/`. -/
def isValidAccountNumber (s : Str) : Bool :=
  decide (10 ≤ s.length) && decide (s.length ≤ 16) && s.all (fun c => c.isDigit)

/-- `isValidUsername`: `/^[a-zA-Z0-9_]{3,50}$/`. -/
def isValidUsername (s : Str) : Bool :=
  decide (3 ≤ s.length) && decide (s.length ≤ 50) &&
    s.all (fun c => c.isAlphanum || c == '_')

/-- A JavaScript value passed to `sanitizeInput`: a string, or any
non-string value (number, object, `undefined`, ...). -/
inductive JsInput where
  | str (s : Str)
  | nonString
deriving Repr

/-- Scan for the first `'>'`; on success return the remainder after it.
Used to model one match of the global regex `/<[^>]*>/`: starting at a
`'<'`, the match extends through the first following `'>'` (there is no
match at this `'<'` when no `'>'` follows). -/
def dropTag : Str → Option Str
  | [] => none
  | c :: t => if c = '>' then some t else dropTag t

theorem dropTag_length : ∀ (l r : Str), dropTag l = some r → r.length < l.length := by
  intro l
  induction l with
  | nil => intro r h; cases h
  | cons c t ih =>
    intro r h
    by_cases hc : c = '>'
    · simp [dropTag, hc] at h
      subst h
      simp
    · simp [dropTag, hc] at h
      have := ih r h
      simp
      omega

/-- `input.replace(/<[^>]*>/g, '')` (validators.js line 187): delete
every span from a `'<'` through the next `'>'`; a `'<'` with no later
`'>'` is kept (the regex has no further match there). -/
def removeHtmlTags : Str → Str
  | [] => []
  | c :: rest =>
    if c = '<' then
      match h : dropTag rest with
      | some after => removeHtmlTags after
      | none => c :: rest
    else c :: removeHtmlTags rest
termination_by l => l.length
decreasing_by
  all_goals simp_wf
  have := dropTag_length _ _ h
  omega

/-- `.trim()` applied after the replacements: strip whitespace at both
ends (right end first; the two sides are independent). -/
def jsTrim (l : Str) : Str :=
  ((l.reverse.dropWhile Char.isWhitespace).reverse).dropWhile Char.isWhitespace

/-- `sanitizeInput(input)` (validators.js lines 182-191): `''` for any
non-string input; otherwise remove HTML tag spans, then every `'<'` and
`'>'`, then every `'&'`, `'('` and `')'`, and trim. -/
def sanitizeInput (input : JsInput) : Str :=
  match input with
  | .nonString => []
  | .str s =>
    jsTrim (((removeHtmlTags s).filter
        (fun c => !(c == '<' || c == '>'))).filter
      (fun c => !(c == '&' || c == '(' || c == ')')))

/-! ### Helper lemmas for `sanitizeInput` -/

theorem head_dropWhile_any (p : Char → Bool) :
    ∀ l : Str, ((l.dropWhile p).head?.any p) = false := by
  intro l
  induction l with
  | nil => rfl
  | cons a l ih =>
    by_cases h : p a <;> simp [List.dropWhile_cons, h, ih]

theorem getLast_dropWhile_any (p : Char → Bool) (l : Str)
    (h : (l.getLast?.any p) = false) :
    ((l.dropWhile p).getLast?.any p) = false := by
  rcases em : l.dropWhile p with _ | ⟨a, t⟩
  · simp
  · have hne : l.dropWhile p ≠ [] := by simp [em]
    have h2 : (l.takeWhile p ++ l.dropWhile p).getLast? = (l.dropWhile p).getLast? :=
      List.getLast?_append_of_ne_nil (l.takeWhile p) hne
    rw [List.takeWhile_append_dropWhile p l] at h2
    rw [← em, ← h2]
    exact h

theorem mem_dropWhile_imp (p : Char → Bool) (l : Str) (c : Char)
    (h : c ∈ l.dropWhile p) : c ∈ l := by
  have hsplit : l.takeWhile p ++ l.dropWhile p = l :=
    List.takeWhile_append_dropWhile p l
  rw [← hsplit]
  exact List.mem_append_right _ h

theorem mem_jsTrim_imp (l : Str) (c : Char) (h : c ∈ jsTrim l) : c ∈ l := by
  unfold jsTrim at h
  have h1 := mem_dropWhile_imp _ _ _ h
  rw [List.mem_reverse] at h1
  have h2 := mem_dropWhile_imp _ _ _ h1
  rwa [List.mem_reverse] at h2

/-! ### Theorem for C10 -/

/-- C10: `sanitizeInput` is total, returns `''` on any non-string
input, and for every string input its result contains no `'<'`, `'>'`,
`'&'`, `'('` or `')'` and has neither a leading nor a trailing
whitespace character. -/
theorem sanitizeInput_spec (s : Str) :
    sanitizeInput .nonString = [] ∧
    ('<' ∉ sanitizeInput (.str s) ∧ '>' ∉ sanitizeInput (.str s) ∧
      '&' ∉ sanitizeInput (.str s) ∧ '(' ∉ sanitizeInput (.str s) ∧
      ')' ∉ sanitizeInput (.str s)) ∧
    ((sanitizeInput (.str s)).head?.any Char.isWhitespace = false) ∧
    ((sanitizeInput (.str s)).getLast?.any Char.isWhitespace = false) := by
  have hmem : ∀ c : Char, c ∈ sanitizeInput (.str s) →
      (!(c == '<' || c == '>')) = true ∧
      (!(c == '&' || c == '(' || c == ')')) = true := by
    intro c hc
    unfold sanitizeInput at hc
    have h1 := mem_jsTrim_imp _ _ hc
    have h2 := List.mem_filter.mp h1
    have h3 := List.mem_filter.mp h2.1
    exact ⟨h3.2, h2.2⟩
  refine ⟨rfl, ⟨?_, ?_, ?_, ?_, ?_⟩, ?_, ?_⟩
  · intro hc; have := (hmem _ hc).1; simp at this
  · intro hc; have := (hmem _ hc).1; simp at this
  · intro hc; have := (hmem _ hc).2; simp at this
  · intro hc; have := (hmem _ hc).2; simp at this
  · intro hc; have := (hmem _ hc).2; simp at this
  · unfold sanitizeInput jsTrim
    exact head_dropWhile_any _ _
  · unfold sanitizeInput jsTrim
    apply getLast_dropWhile_any
    rw [← List.head?_reverse, List.reverse_reverse]
    exact head_dropWhile_any _ _

/-! ## Abuse guard (brute-force limiter)

`server.js` wires `loginBruteForce.prevent`, `registrationBruteForce.prevent`
and `paymentBruteForce.prevent` from `middleware/brute.js`, but that
middleware file itself is not present in the sources (only its importer
and its tests are); the guard is therefore modelled from the spec. -/

/-- Modelled from the spec: configuration of one brute-force guard
instance from the missing `middleware/brute.js` — "reaching a configured
threshold (distinct thresholds per route class ...) transitions to
`Locked` with a lockout duration". -/
structure GuardConfig where
  threshold : Nat
  lockoutMs : Nat
deriving DecidableEq, Repr

/-- Modelled from the spec: the per-scope-key `AbuseCounter` state —
"attempt count, window start, lockout-until (if tripped)". -/
structure GuardState where
  failures : Nat
  lockedUntil : Option Nat
deriving DecidableEq, Repr

/-- Modelled from the spec: the `Open` state with a zero counter. -/
def guardOpen : GuardState :=
  { failures := 0, lockedUntil := none }

/-- Modelled from the spec: `check(scopeKey) -> allow | deny` — attempts
are rejected while a lockout is pending and allowed once the lockout
window has elapsed. -/
def guardCheck (s : GuardState) (now : Nat) : Bool :=
  match s.lockedUntil with
  | some t => decide (t ≤ now)
  | none => true

/-- Modelled from the spec: `recordFailure(scopeKey)` — "each failure
increments the window counter; reaching a configured threshold
transitions to `Locked` with a lockout duration". -/
def recordFailure (cfg : GuardConfig) (s : GuardState) (now : Nat) : GuardState :=
  let n := s.failures + 1
  if cfg.threshold ≤ n then
    { failures := n, lockedUntil := some (now + cfg.lockoutMs) }
  else
    { failures := n, lockedUntil := none }

/-- Modelled from the spec: `recordSuccess(scopeKey)` — "any
authenticated success for that scope resets the counter to zero and
returns to `Open`". -/
def recordSuccess (_cfg : GuardConfig) (_s : GuardState) : GuardState :=
  guardOpen

/-- Modelled from the spec's control flow: one guarded login attempt —
the Abuse Guard check runs before the credential check, so a locked
scope is denied regardless of whether the password is correct; an
allowed correct attempt records a success, an allowed wrong attempt
records a failure. Returns (allowed-and-authenticated?, new state). -/
def guardedAttempt (cfg : GuardConfig) (s : GuardState) (now : Nat)
    (passwordCorrect : Bool) : Bool × GuardState :=
  if guardCheck s now = false then
    (false, s)
  else if passwordCorrect then
    (true, recordSuccess cfg s)
  else
    (false, recordFailure cfg s now)

/-- `n` consecutive recorded failures at time `now`, starting from `s`. -/
def failuresFrom (cfg : GuardConfig) (s : GuardState) (now : Nat) : Nat → GuardState
  | 0 => s
  | n + 1 => recordFailure cfg (failuresFrom cfg s now n) now

theorem recordFailure_failures (cfg : GuardConfig) (s : GuardState) (now : Nat) :
    (recordFailure cfg s now).failures = s.failures + 1 := by
  unfold recordFailure
  by_cases h : cfg.threshold ≤ s.failures + 1 <;> simp [h]

theorem failuresFrom_failures (cfg : GuardConfig) (s : GuardState) (now : Nat) :
    ∀ n, (failuresFrom cfg s now n).failures = s.failures + n := by
  intro n
  induction n with
  | zero => rfl
  | succ n ih =>
    simp only [failuresFrom, recordFailure_failures, ih]
    omega

/-! ### Theorem for C7 -/

/-- C7 (modelled from the spec, `middleware/brute.js` being absent from
the sources): after `N = threshold` consecutive recorded failures for a
scope key starting from `Open`, the scope is locked until `now +
lockout`; the next attempt is denied even with the correct password at
any time before the lockout window elapses, and allowed again once it
has elapsed; and a single authenticated success before reaching `N`
resets the counter to zero and returns the state to `Open`. -/
theorem abuseGuard_lockout_and_reset (cfg : GuardConfig) (now : Nat)
    (hpos : 0 < cfg.threshold) :
    ((failuresFrom cfg guardOpen now cfg.threshold).lockedUntil =
        some (now + cfg.lockoutMs) ∧
      (failuresFrom cfg guardOpen now cfg.threshold).failures = cfg.threshold) ∧
    (∀ now', now' < now + cfg.lockoutMs →
      (guardedAttempt cfg (failuresFrom cfg guardOpen now cfg.threshold)
        now' true).1 = false) ∧
    (∀ now', now + cfg.lockoutMs ≤ now' →
      guardCheck (failuresFrom cfg guardOpen now cfg.threshold) now' = true) ∧
    (∀ s : GuardState, s.failures < cfg.threshold →
      guardCheck s now = true →
      (guardedAttempt cfg s now true).2 = guardOpen ∧
      (guardedAttempt cfg s now true).2.failures = 0) := by
  have hlock : (failuresFrom cfg guardOpen now cfg.threshold).lockedUntil =
      some (now + cfg.lockoutMs) := by
    rcases Nat.exists_eq_succ_of_ne_zero (Nat.pos_iff_ne_zero.mp hpos) with ⟨k, hk⟩
    have hf : (failuresFrom cfg guardOpen now k).failures = k := by
      simpa [guardOpen] using failuresFrom_failures cfg guardOpen now k
    have hcond : cfg.threshold ≤ (failuresFrom cfg guardOpen now k).failures + 1 := by
      rw [hf]
      omega
    rw [hk]
    simp only [failuresFrom]
    unfold recordFailure
    simp [hcond]
  refine ⟨⟨hlock, ?_⟩, ?_, ?_, ?_⟩
  · simpa [guardOpen] using failuresFrom_failures cfg guardOpen now cfg.threshold
  · intro now' hlt
    have hc : guardCheck (failuresFrom cfg guardOpen now cfg.threshold) now' = false := by
      simp [guardCheck, hlock]
      omega
    simp [guardedAttempt, hc]
  · intro now' hge
    simp [guardCheck, hlock]
    omega
  · intro s _ hs
    simp [guardedAttempt, hs, recordSuccess, guardOpen]

/-- C7 witness: with threshold 5 and a 10-minute lockout, the 6th
attempt is denied even with the correct password, the scope reopens
after the lockout, and an early success resets the counter. -/
theorem abuseGuard_lockout_witness :
    (∀ now', now' < 0 + 600000 →
      (guardedAttempt ⟨5, 600000⟩ (failuresFrom ⟨5, 600000⟩ guardOpen 0 5)
        now' true).1 = false) ∧
    guardCheck (failuresFrom ⟨5, 600000⟩ guardOpen 0 5) 600000 = true :=
  ⟨(abuseGuard_lockout_and_reset ⟨5, 600000⟩ 0 (by decide)).2.1,
    (abuseGuard_lockout_and_reset ⟨5, 600000⟩ 0 (by decide)).2.2.1 600000 (by decide)⟩

/-! ## Customer login: `routes/customerAuth.js` `POST /login`

The route is embedded as a pure function from the request, the customer
store, and the ambient metadata to the HTTP response together with the
list of audit events recorded by the attempt.  The `AuditLog` static
helpers (`models/AuditLog.js`) wrap their database write in `try/catch`
and swallow any error; the possibility of a failing write is exposed by
the `storeOk` flag — when the write fails the event is simply not
persisted and the flow continues. -/

/-- A stored customer document (models/Customer.js): the fields the
login route reads. -/
structure Customer where
  id : Str
  fullName : Str
  accountNumber : Str
  username : Str
  passwordHash : StoredHash
  passwordSalt : Str
  isActive : Bool
deriving DecidableEq, Repr

/-- The request body `{ username, accountNumber, password }`; `username`
is optional. -/
structure LoginRequest where
  username : Option Str
  accountNumber : Str
  password : Str
deriving DecidableEq, Repr

/-- An `AuditEvent` document, with the fields set by the `AuditLog`
static helpers. -/
structure AuditEvent where
  eventType : Str
  userType : Str
  username : Str
  accountNumber : Option Str
  ipAddress : Str
  userAgent : Str
  failureReason : Option Str
  severity : Str
deriving DecidableEq, Repr

/-- `AuditLog.logFailedLogin` (AuditLog.js lines 101-118): builds a
`login_failed` event with severity `warning`; the write is wrapped in
`try/catch`, so a store failure loses the event but never propagates. -/
def logFailedLogin (storeOk : Bool) (userType username : Str)
    (accountNumber : Option Str) (ip ua : Str) (reason : Str) :
    List AuditEvent :=
  if storeOk then
    [{ eventType := "login_failed".data, userType := userType
       username := username, accountNumber := accountNumber
       ipAddress := ip, userAgent := ua
       failureReason := some reason, severity := "warning".data }]
  else
    []

/-- `AuditLog.logSuccessfulLogin` (AuditLog.js lines 123-139): builds a
`login_success` event with severity `info`; same `try/catch` around the
write. -/
def logSuccessfulLogin (storeOk : Bool) (userType username : Str)
    (accountNumber : Option Str) (ip ua : Str) : List AuditEvent :=
  if storeOk then
    [{ eventType := "login_success".data, userType := userType
       username := username, accountNumber := accountNumber
       ipAddress := ip, userAgent := ua
       failureReason := none, severity := "info".data }]
  else
    []

/-- The JSON response of the login route: status code, `success` flag,
optional `message`, and on success the token, username and full name. -/
structure LoginResponse where
  status : Nat
  success : Bool
  message : Option Str
  token : Option Jwt
  respUsername : Option Str
  respFullName : Option Str
deriving DecidableEq, Repr

/-- The generic 401 response shared by the not-found/inactive and
wrong-password branches (customerAuth.js lines 188-191 and 211-214). -/
def invalidCredentialsResponse : LoginResponse :=
  { status := 401, success := false
    message := some "Invalid credentials.".data
    token := none, respUsername := none, respFullName := none }

/-- JavaScript truthiness of the optional `username` field: `undefined`
and the empty string are falsy. -/
def providedUsername (req : LoginRequest) : Option Str :=
  match req.username with
  | some u => if u.isEmpty then none else some u
  | none => none

/-- `username || 'not-provided'` as used by the audit calls. -/
def usernameOrNotProvided (req : LoginRequest) : Str :=
  (providedUsername req).getD "not-provided".data

/-- `if (username && !validator.isValidUsername(username))`: the request
passes the username check when no (truthy) username was sent or the sent
one is well-formed. -/
def usernameFormatOk (req : LoginRequest) : Bool :=
  match providedUsername req with
  | some u => isValidUsername u
  | none => true

/-- `username.toLowerCase()`. -/
def toLowerStr (s : Str) : Str := s.map Char.toLower

/-- `Customer.findOne({accountNumber, isActive: true, username?})`
(customerAuth.js lines 167-176): first customer matching the account
number, active, and — when a username was sent — the lowercased
username. -/
def findCustomer (db : List Customer) (accountNumber : Str)
    (loweredUsername : Option Str) : Option Customer :=
  db.find? (fun c =>
    decide (c.accountNumber = accountNumber) && c.isActive &&
      (match loweredUsername with
       | some u => decide (c.username = u)
       | none => true))

/-- `POST /api/customer/auth/login` (customerAuth.js lines 123-251):
validate the account number, validate the username when provided, look
the customer up, verify the password, and answer; every branch records
its audit event (written only when `storeOk`, but never throwing). -/
def customerLogin (envExpire : Option Nat) (secret : Str) (now : Nat)
    (storeOk : Bool) (db : List Customer) (req : LoginRequest)
    (ip ua : Str) : LoginResponse × List AuditEvent :=
  if !isValidAccountNumber req.accountNumber then
    ({ status := 400, success := false
       message := some "Invalid account number format.".data
       token := none, respUsername := none, respFullName := none },
     logFailedLogin storeOk "customer".data (usernameOrNotProvided req)
       (some req.accountNumber) ip ua "Invalid account number format".data)
  else if !usernameFormatOk req then
    ({ status := 400, success := false
       message := some "Invalid username format.".data
       token := none, respUsername := none, respFullName := none },
     logFailedLogin storeOk "customer".data (usernameOrNotProvided req)
       (some req.accountNumber) ip ua "Invalid username format".data)
  else
    match findCustomer db req.accountNumber
        ((providedUsername req).map toLowerStr) with
    | none =>
      (invalidCredentialsResponse,
       logFailedLogin storeOk "customer".data (usernameOrNotProvided req)
         (some req.accountNumber) ip ua "Account not found or inactive".data)
    | some c =>
      if verifyPassword req.password c.passwordHash c.passwordSalt then
        ({ status := 200, success := true, message := none
           token := some (generateToken envExpire secret now c.id c.username
             "customer".data)
           respUsername := some c.username, respFullName := some c.fullName },
         logSuccessfulLogin storeOk "customer".data c.username
           (some req.accountNumber) ip ua)
      else
        (invalidCredentialsResponse,
         logFailedLogin storeOk "customer".data c.username
           (some req.accountNumber) ip ua "Invalid password".data)

/-! ### Theorems for C8 and C9 -/

/-- C8: the login error surfaced to the caller is the identical generic
HTTP 401 `"Invalid credentials."` both in a run where the identity is
not found (or inactive) and in a run where the password is wrong, so the
two sub-cases are indistinguishable from the response. -/
theorem login_no_username_enumeration
    (envExpire : Option Nat) (secret : Str) (now : Nat) (storeOk : Bool)
    (db₁ db₂ : List Customer) (req₁ req₂ : LoginRequest) (c : Customer)
    (ip₁ ua₁ ip₂ ua₂ : Str)
    (hacct₁ : isValidAccountNumber req₁.accountNumber = true)
    (huser₁ : usernameFormatOk req₁ = true)
    (hnf : findCustomer db₁ req₁.accountNumber
      ((providedUsername req₁).map toLowerStr) = none)
    (hacct₂ : isValidAccountNumber req₂.accountNumber = true)
    (huser₂ : usernameFormatOk req₂ = true)
    (hf : findCustomer db₂ req₂.accountNumber
      ((providedUsername req₂).map toLowerStr) = some c)
    (hbad : verifyPassword req₂.password c.passwordHash c.passwordSalt = false) :
    (customerLogin envExpire secret now storeOk db₁ req₁ ip₁ ua₁).1 =
      (customerLogin envExpire secret now storeOk db₂ req₂ ip₂ ua₂).1 ∧
    (customerLogin envExpire secret now storeOk db₁ req₁ ip₁ ua₁).1 =
      invalidCredentialsResponse ∧
    (customerLogin envExpire secret now storeOk db₁ req₁ ip₁ ua₁).1.status = 401 := by
  have h1 : (customerLogin envExpire secret now storeOk db₁ req₁ ip₁ ua₁).1 =
      invalidCredentialsResponse := by
    unfold customerLogin
    simp [hacct₁, huser₁, hnf]
  have h2 : (customerLogin envExpire secret now storeOk db₂ req₂ ip₂ ua₂).1 =
      invalidCredentialsResponse := by
    unfold customerLogin
    simp [hacct₂, huser₂, hf, hbad]
  exact ⟨h1.trans h2.symm, h1, by rw [h1]; rfl⟩

/-- C9: every login attempt records exactly one audit event.  With the
store healthy: a correct login answers 200 with a token and records
exactly one `login_success` event of severity `info`; the same request
with a wrong password answers the generic 401 and records exactly one
`login_failed` event of severity `warning` with `failureReason`
populated; every run of the route (any request, any store) records at
most the events of a single audit call, exactly one when the store is
healthy; and the response never depends on whether the audit write
succeeded. -/
theorem login_audit_events
    (envExpire : Option Nat) (secret : Str) (now : Nat)
    (db : List Customer) (req : LoginRequest) (c : Customer) (ip ua : Str)
    (hacct : isValidAccountNumber req.accountNumber = true)
    (huser : usernameFormatOk req = true)
    (hf : findCustomer db req.accountNumber
      ((providedUsername req).map toLowerStr) = some c) :
    (verifyPassword req.password c.passwordHash c.passwordSalt = true →
      (customerLogin envExpire secret now true db req ip ua).1.success = true ∧
      (customerLogin envExpire secret now true db req ip ua).1.token =
        some (generateToken envExpire secret now c.id c.username
          "customer".data) ∧
      (customerLogin envExpire secret now true db req ip ua).2 =
        [{ eventType := "login_success".data, userType := "customer".data
           username := c.username, accountNumber := some req.accountNumber
           ipAddress := ip, userAgent := ua
           failureReason := none, severity := "info".data }]) ∧
    (verifyPassword req.password c.passwordHash c.passwordSalt = false →
      (customerLogin envExpire secret now true db req ip ua).1 =
        invalidCredentialsResponse ∧
      (customerLogin envExpire secret now true db req ip ua).2 =
        [{ eventType := "login_failed".data, userType := "customer".data
           username := c.username, accountNumber := some req.accountNumber
           ipAddress := ip, userAgent := ua
           failureReason := some "Invalid password".data
           severity := "warning".data }]) ∧
    (∀ (db' : List Customer) (req' : LoginRequest) (ip' ua' : Str),
      ((customerLogin envExpire secret now true db' req' ip' ua').2).length = 1) ∧
    (∀ (storeOk : Bool) (db' : List Customer) (req' : LoginRequest)
        (ip' ua' : Str),
      (customerLogin envExpire secret now storeOk db' req' ip' ua').1 =
        (customerLogin envExpire secret now true db' req' ip' ua').1) := by
  refine ⟨?_, ?_, ?_, ?_⟩
  · intro hok
    unfold customerLogin
    simp [hacct, huser, hf, hok, logSuccessfulLogin]
  · intro hbad
    unfold customerLogin
    simp [hacct, huser, hf, hbad, logFailedLogin]
  · intro db' req' ip' ua'
    unfold customerLogin
    by_cases h1 : isValidAccountNumber req'.accountNumber
    · by_cases h2 : usernameFormatOk req'
      · rcases hfind : findCustomer db' req'.accountNumber
            ((providedUsername req').map toLowerStr) with _ | c'
        · simp [h1, h2, hfind, logFailedLogin]
        · by_cases h3 : verifyPassword req'.password c'.passwordHash
              c'.passwordSalt <;>
            simp [h1, h2, hfind, h3, logFailedLogin, logSuccessfulLogin]
      · simp [h1, h2, logFailedLogin]
    · simp [h1, logFailedLogin]
  · intro storeOk db' req' ip' ua'
    unfold customerLogin
    by_cases h1 : isValidAccountNumber req'.accountNumber
    · by_cases h2 : usernameFormatOk req'
      · rcases hfind : findCustomer db' req'.accountNumber
            ((providedUsername req').map toLowerStr) with _ | c'
        · simp [h1, h2, hfind]
        · by_cases h3 : verifyPassword req'.password c'.passwordHash
              c'.passwordSalt <;>
            simp [h1, h2, hfind, h3]
      · simp [h1, h2]
    · simp [h1]

/-! ### Concrete data for the login witnesses -/

/-- A concrete stored customer whose credential was produced by
`hashPassword`. -/
def demoCustomer : Customer :=
  { id := "id1".data, fullName := "Alice Smith".data
    accountNumber := "1234567890".data, username := "alice".data
    passwordHash := (hashPassword "Secret1!".data "salt0".data).hash
    passwordSalt := (hashPassword "Secret1!".data "salt0".data).salt
    isActive := true }

/-- A login request carrying the correct credentials of `demoCustomer`. -/
def demoReqGood : LoginRequest :=
  { username := some "alice".data, accountNumber := "1234567890".data
    password := "Secret1!".data }

/-- A login request for an account number no customer has. -/
def demoReqNotFound : LoginRequest :=
  { username := none, accountNumber := "9876543210".data
    password := "Whatever1!".data }

/-- A login request for `demoCustomer` with a wrong password. -/
def demoReqWrongPw : LoginRequest :=
  { username := some "alice".data, accountNumber := "1234567890".data
    password := "Wrong1!".data }

/-- C8 witness: at concrete inputs, the not-found run and the
wrong-password run produce the identical generic 401 response. -/
theorem login_no_username_enumeration_witness :
    (customerLogin none "k".data 0 true [] demoReqNotFound
        "ip".data "ua".data).1 =
      (customerLogin none "k".data 0 true [demoCustomer] demoReqWrongPw
        "ip2".data "ua2".data).1 ∧
    (customerLogin none "k".data 0 true [] demoReqNotFound
        "ip".data "ua".data).1 = invalidCredentialsResponse ∧
    (customerLogin none "k".data 0 true [] demoReqNotFound
        "ip".data "ua".data).1.status = 401 :=
  login_no_username_enumeration none "k".data 0 true [] [demoCustomer]
    demoReqNotFound demoReqWrongPw demoCustomer "ip".data "ua".data
    "ip2".data "ua2".data (by decide) (by decide) (by decide) (by decide)
    (by decide) (by decide) (by decide)

/-- C9 witness: at concrete inputs, a correct login answers with a
token and records exactly one `login_success` event of severity
`info`. -/
theorem login_audit_events_witness :
    (customerLogin none "k".data 0 true [demoCustomer] demoReqGood
        "ip".data "ua".data).1.success = true ∧
    (customerLogin none "k".data 0 true [demoCustomer] demoReqGood
        "ip".data "ua".data).1.token =
      some (generateToken none "k".data 0 demoCustomer.id
        demoCustomer.username "customer".data) ∧
    (customerLogin none "k".data 0 true [demoCustomer] demoReqGood
        "ip".data "ua".data).2 =
      [{ eventType := "login_success".data, userType := "customer".data
         username := demoCustomer.username
         accountNumber := some demoReqGood.accountNumber
         ipAddress := "ip".data, userAgent := "ua".data
         failureReason := none, severity := "info".data }] :=
  (login_audit_events none "k".data 0 [demoCustomer] demoReqGood
    demoCustomer "ip".data "ua".data (by decide) (by decide) (by decide)).1
    (by decide)

end BankApi
